import Mathlib

set_option autoImplicit false

/-!
Verification of the resilience layer (`PlivoResilient` / `DeepgramResilient`):
retry engine with exponential backoff, circuit-breaker gating, and the
`ResultEnvelope` contract of the facade methods.

The delegates (manager layer) are abstracted as behaviours
`Nat → Except Er α`: the outcome of the i-th invocation of the delegate
(0-based).  The `opossum` circuit-breaker library is not part of the
repository; its observable behaviour is modelled from the spec where noted.
-/

namespace Resilience

/-- Errors thrown by delegates and by the resilience layer, modelled by
their message string (`error.message`). -/
abbrev Er := String

/-- Effective retry settings: the four local constants read at the top of
`executeWithRetry` (`maxRetries`, `retryDelay`, `retryMultiplier`,
`maxRetryDelay`), after the `||`-defaulting of the config fields. -/
structure RetrySettings where
  maxRetries : Nat
  retryDelay : Rat
  retryMultiplier : Rat
  maxRetryDelay : Rat
deriving DecidableEq

/-- JavaScript `x || d` on a numeric config field: a falsy (zero) value
falls back to the default. -/
def jsOrNat (x : Nat) (d : Nat) : Nat := if x = 0 then d else x

/-- JavaScript `x || d` on a numeric config field, rational version. -/
def jsOrRat (x : Rat) (d : Rat) : Rat := if x = 0 then d else x

/-- Backoff delay before the retry following (0-based) failed attempt
`attempt`: `Math.min(retryDelay * Math.pow(retryMultiplier, attempt), maxRetryDelay)`. -/
def computeDelay (retryDelay retryMultiplier maxRetryDelay : Rat) (attempt : Nat) : Rat :=
  min (retryDelay * retryMultiplier ^ attempt) maxRetryDelay

/-- Structured content of the log lines emitted by the retry loop:
`console.warn` on a retried attempt (carrying the layer tag, operation
name, 1-based attempt number, total attempt budget, backoff delay and the
error message), and `console.error` on exhaustion. -/
inductive LogEvent where
  | retryWarn (layer operationName : String) (attempt totalAttempts : Nat)
      (delay : Rat) (message : Er)
  | exhausted (layer operationName : String) (totalAttempts : Nat) (message : Er)
deriving DecidableEq

/-- Observable trace of one run of the retry loop: the final outcome, how
many times the wrapped operation was invoked, the sequence of backoff
delays slept, and the log events emitted. -/
structure RetryTrace (α : Type) where
  result : Except Er α
  invocations : Nat
  delays : List Rat
  logs : List LogEvent

/-- Body of the `for (let attempt = 0; attempt <= maxRetries; attempt++)`
loop of `executeWithRetry`, starting at attempt index `attempt` with
`fuel = maxRetries - attempt` further attempts allowed after this one.
On success the loop returns at once; on failure with fuel left it logs,
sleeps `computeDelay attempt` and continues; on failure with no fuel left
it logs exhaustion and the loop ends with the last error rethrown. -/
def retryGo {α : Type} (layer : String) (op : Nat → Except Er α) (s : RetrySettings)
    (operationName : String) : Nat → Nat → RetryTrace α
  | 0, attempt =>
    match op attempt with
    | .ok v => ⟨.ok v, 1, [], []⟩
    | .error e =>
        ⟨.error e, 1, [], [LogEvent.exhausted layer operationName (s.maxRetries + 1) e]⟩
  | fuel + 1, attempt =>
    match op attempt with
    | .ok v => ⟨.ok v, 1, [], []⟩
    | .error e =>
        let d := computeDelay s.retryDelay s.retryMultiplier s.maxRetryDelay attempt
        let rest := retryGo layer op s operationName fuel (attempt + 1)
        ⟨rest.result, rest.invocations + 1, d :: rest.delays,
          LogEvent.retryWarn layer operationName (attempt + 1) (s.maxRetries + 1) d e
            :: rest.logs⟩

/-- The retry engine `executeWithRetry(operation, operationName)`: up to
`maxRetries + 1` sequential attempts with exponential backoff between
them, rethrowing the last error on exhaustion. -/
def executeWithRetry {α : Type} (layer : String) (op : Nat → Except Er α)
    (s : RetrySettings) (operationName : String) : RetryTrace α :=
  retryGo layer op s operationName s.maxRetries 0

theorem retryGo_allFail {α : Type} (layer : String) (op : Nat → Except Er α)
    (s : RetrySettings) (operationName : String)
    (hop : ∀ j, ∃ e, op j = .error e) :
    ∀ fuel attempt,
      (retryGo layer op s operationName fuel attempt).invocations = fuel + 1 ∧
      (retryGo layer op s operationName fuel attempt).result = op (attempt + fuel) ∧
      (retryGo layer op s operationName fuel attempt).delays =
        (List.range fuel).map
          (fun i => computeDelay s.retryDelay s.retryMultiplier s.maxRetryDelay (attempt + i)) ∧
      ∃ e, op (attempt + fuel) = .error e ∧
        LogEvent.exhausted layer operationName (s.maxRetries + 1) e
          ∈ (retryGo layer op s operationName fuel attempt).logs := by
  intro fuel
  induction fuel with
  | zero =>
      intro attempt
      obtain ⟨e, he⟩ := hop attempt
      refine ⟨by simp [retryGo, he], by simp [retryGo, he], by simp [retryGo, he], e, ?_, ?_⟩
      · rw [Nat.add_zero]; exact he
      · simp [retryGo, he]
  | succ fuel ih =>
      intro attempt
      obtain ⟨e, he⟩ := hop attempt
      obtain ⟨hinv, hres, hdel, e', he', hmem⟩ := ih (attempt + 1)
      have harith : attempt + 1 + fuel = attempt + (fuel + 1) := by omega
      refine ⟨?_, ?_, ?_, e', ?_, ?_⟩
      · simp [retryGo, he, hinv]
      · simp only [retryGo, he]
        rw [hres, harith]
      · simp only [retryGo, he]
        rw [hdel, List.range_succ_eq_map, List.map_cons, List.map_map]
        refine congrArg₂ List.cons (by rw [Nat.add_zero]) ?_
        apply List.map_congr_left
        intro i _
        simp only [Function.comp_apply]
        congr 1
        omega
      · rw [← harith]; exact he'
      · simp only [retryGo, he]
        exact List.mem_cons_of_mem _ hmem

theorem retryGo_succeed {α : Type} (layer : String) (op : Nat → Except Er α)
    (s : RetrySettings) (operationName : String) (v : α) :
    ∀ k attempt fuel, (∀ i, i < k → ∃ e, op (attempt + i) = .error e) →
      op (attempt + k) = .ok v → k ≤ fuel →
      (retryGo layer op s operationName fuel attempt).result = .ok v ∧
      (retryGo layer op s operationName fuel attempt).invocations = k + 1 := by
  intro k
  induction k with
  | zero =>
      intro attempt fuel _ hsucc _
      rw [Nat.add_zero] at hsucc
      cases fuel with
      | zero => exact ⟨by simp [retryGo, hsucc], by simp [retryGo, hsucc]⟩
      | succ fuel => exact ⟨by simp [retryGo, hsucc], by simp [retryGo, hsucc]⟩
  | succ k ih =>
      intro attempt fuel hfail hsucc hk
      obtain ⟨e, he⟩ := hfail 0 (Nat.succ_pos k)
      rw [Nat.add_zero] at he
      cases fuel with
      | zero => exact absurd hk (by omega)
      | succ fuel =>
          have hfail' : ∀ i, i < k → ∃ er, op (attempt + 1 + i) = .error er := by
            intro i hi
            have := hfail (i + 1) (by omega)
            simpa [Nat.add_assoc, Nat.add_comm 1 i] using this
          have hsucc' : op (attempt + 1 + k) = .ok v := by
            simpa [Nat.add_assoc, Nat.add_comm 1 k] using hsucc
          obtain ⟨hres, hinv⟩ := ih (attempt + 1) fuel hfail' hsucc' (by omega)
          exact ⟨by simp only [retryGo, he]; exact hres, by simp [retryGo, he, hinv]⟩

/-- Modelled from the spec: the observable state of one `opossum`
CircuitBreaker instance (the library itself is not part of the repository).
It carries its `name`, its configured `errorThresholdPercentage`, the
`opened` flag exposed for monitoring, and the rolling window of recorded
samples (`true` = success).  Time-based bucket expiry, `resetTimeout` and
the half-open trial are real-time behaviour and are not modelled. -/
structure BreakerState where
  name : String
  errorThresholdPercentage : Rat
  opened : Bool
  window : List Bool
deriving DecidableEq

/-- Error percentage over a rolling window of samples. -/
def errorPercentage (window : List Bool) : Rat :=
  if window.length = 0 then 0
  else ((window.filter (fun b => !b)).length : Rat) * 100 / (window.length : Rat)

/-- Modelled from the spec: recording one sample in the rolling window;
the breaker transitions closed→open when the error percentage over the
window reaches the threshold. -/
def recordSample (b : BreakerState) (ok : Bool) : BreakerState :=
  let w := b.window ++ [ok]
  { b with window := w,
           opened := b.opened ||
             decide (b.errorThresholdPercentage ≤ errorPercentage w) }

/-- Message of the rejection produced by a breaker that is open. -/
def circuitOpenError : Er := "Breaker is open"

/-- Boolean success of an `Except` outcome. -/
def exceptOk {α : Type} : Except Er α → Bool
  | .ok _ => true
  | .error _ => false

/-- Outcome of `breaker.fire(...)`: the settled result, the breaker state
after the call, and how many times the underlying delegate ran. -/
structure FireOut (α : Type) where
  result : Except Er α
  breaker : BreakerState
  invocations : Nat

/-- Modelled from the spec: `fire` fails fast with a circuit-open error
when the breaker is open, without invoking the operation; otherwise it
runs the (already-retrying) operation and records exactly one sample —
one success or one failure — whatever the operation did internally. -/
def BreakerState.fire {α : Type} (b : BreakerState) (t : RetryTrace α) : FireOut α :=
  if b.opened then ⟨.error circuitOpenError, b, 0⟩
  else ⟨t.result, recordSample b (exceptOk t.result), t.invocations⟩

/-- The `CallResult` / `TranscriptionResult` envelope returned by every
facade method: optional fields model the presence or absence of the
corresponding property on the returned object. -/
structure Envelope (α : Type) where
  success : Bool
  data : Option α
  error : Option Er
  retryCount : Option Nat
  circuitBreakerState : Option String
deriving DecidableEq

/-- JavaScript `String(b)` on a boolean. -/
def boolString (b : Bool) : String := if b then "true" else "false"

/-- Result of one facade method call: the envelope handed to the caller,
the resulting state of the object, and how many times the underlying
delegate was invoked. -/
structure MethodOut (σ α : Type) where
  env : Envelope α
  state : σ
  invocations : Nat

/-- Intermediate output of the shared breaker-gated method shape. -/
structure FacadeOut (α : Type) where
  env : Envelope α
  breaker : BreakerState
  invocations : Nat

/-- Shared shape of every breaker-gated facade method (the source repeats
it verbatim per method): fire the breaker around the retrying execution;
on resolution build the success envelope with `data` (through the
method's projection of the raw result), `retryCount` and the stringified
`opened` flag; on rejection build the failure envelope with `error` and
the stringified `opened` flag, and no `retryCount`. -/
def fireEnvelope {α β : Type} (b : BreakerState) (t : RetryTrace α)
    (project : α → β) : FacadeOut β :=
  let f := b.fire t
  match f.result with
  | .ok v =>
      ⟨{ success := true, data := some (project v), error := none,
         retryCount := some f.invocations,
         circuitBreakerState := some (boolString f.breaker.opened) },
       f.breaker, f.invocations⟩
  | .error e =>
      ⟨{ success := false, data := none, error := some e,
         retryCount := none,
         circuitBreakerState := some (boolString f.breaker.opened) },
       f.breaker, f.invocations⟩

/-- Data shape built by `initiateRecordedCall` from the manager result. -/
structure InitiateRecordedCallData where
  callUuid : String
  message : String
  apiId : String
deriving DecidableEq

/-- Data shape built by `makeCall` from the manager result. -/
structure MakeCallData where
  request_uuid : String
  message : String
  api_id : String
deriving DecidableEq

/-- Data shape built by `terminateCall` from the manager result. -/
structure TerminateData where
  message : String
deriving DecidableEq

/-- State of one `PlivoResilient` instance: its two circuit breakers
(`makeCall` and `getCallDetails`, created independently by the
constructor) and the retry fields of `this.config` after the
constructor's defaults merge. -/
structure PlivoState where
  makeCallBreaker : BreakerState
  getCallDetailsBreaker : BreakerState
  settings : RetrySettings
deriving DecidableEq

/-- State of one `DeepgramResilient` instance: its single `transcribe`
circuit breaker and the retry fields of `this.config`. -/
structure DeepgramState where
  transcribeBreaker : BreakerState
  settings : RetrySettings
deriving DecidableEq

/-- Breaker produced by `createCircuitBreaker(name)`: starts closed with
an empty window. -/
def createCircuitBreaker (threshold : Rat) (name : String) : BreakerState :=
  ⟨name, threshold, false, []⟩

/-- The `PlivoResilient` constructor: two independent breakers. -/
def PlivoResilient.init (settings : RetrySettings) (threshold : Rat) : PlivoState :=
  ⟨createCircuitBreaker threshold "makeCall",
   createCircuitBreaker threshold "getCallDetails", settings⟩

/-- The `DeepgramResilient` constructor: one `transcribe` breaker. -/
def DeepgramResilient.init (settings : RetrySettings) (threshold : Rat) : DeepgramState :=
  ⟨createCircuitBreaker threshold "transcribe", settings⟩

/-- The four local constants of `PlivoResilient.executeWithRetry`:
`this.config.maxRetries || 3`, `|| 1000`, `|| 2`, `|| 10000`. -/
def PlivoResilient.effectiveSettings (st : PlivoState) : RetrySettings :=
  ⟨jsOrNat st.settings.maxRetries 3, jsOrRat st.settings.retryDelay 1000,
   jsOrRat st.settings.retryMultiplier 2, jsOrRat st.settings.maxRetryDelay 10000⟩

/-- The four local constants of `DeepgramResilient.executeWithRetry`:
`this.config.maxRetries || 3`, `|| 2000`, `|| 2`, `|| 20000`. -/
def DeepgramResilient.effectiveSettings (st : DeepgramState) : RetrySettings :=
  ⟨jsOrNat st.settings.maxRetries 3, jsOrRat st.settings.retryDelay 2000,
   jsOrRat st.settings.retryMultiplier 2, jsOrRat st.settings.maxRetryDelay 20000⟩

/-- PlivoResilient.initiateRecordedCall: makeCall breaker around the
retrying delegate call; the success data re-projects the three fields of
the manager result. -/
def PlivoResilient.initiateRecordedCall (st : PlivoState)
    (op : Nat → Except Er InitiateRecordedCallData) :
    MethodOut PlivoState InitiateRecordedCallData :=
  let r := fireEnvelope st.makeCallBreaker
    (executeWithRetry "PlivoResilient" op (PlivoResilient.effectiveSettings st)
      "initiateRecordedCall")
    (fun d => ⟨d.callUuid, d.message, d.apiId⟩)
  ⟨r.env, { st with makeCallBreaker := r.breaker }, r.invocations⟩

/-- PlivoResilient.makeCall: makeCall breaker around the retrying
delegate call. -/
def PlivoResilient.makeCall (st : PlivoState)
    (op : Nat → Except Er MakeCallData) : MethodOut PlivoState MakeCallData :=
  let r := fireEnvelope st.makeCallBreaker
    (executeWithRetry "PlivoResilient" op (PlivoResilient.effectiveSettings st) "makeCall")
    (fun d => ⟨d.request_uuid, d.message, d.api_id⟩)
  ⟨r.env, { st with makeCallBreaker := r.breaker }, r.invocations⟩

/-- PlivoResilient.getCallDetails: getCallDetails breaker around the
retrying delegate call; the result object is passed through unchanged. -/
def PlivoResilient.getCallDetails {α : Type} (st : PlivoState)
    (op : Nat → Except Er α) : MethodOut PlivoState α :=
  let r := fireEnvelope st.getCallDetailsBreaker
    (executeWithRetry "PlivoResilient" op (PlivoResilient.effectiveSettings st)
      "getCallDetails") id
  ⟨r.env, { st with getCallDetailsBreaker := r.breaker }, r.invocations⟩

/-- PlivoResilient.terminateCall: the retrying delegate call with NO
circuit breaker around it; neither envelope branch carries a
`circuitBreakerState` field, and the failure branch carries no
`retryCount`. -/
def PlivoResilient.terminateCall (st : PlivoState)
    (op : Nat → Except Er TerminateData) : MethodOut PlivoState TerminateData :=
  let t := executeWithRetry "PlivoResilient" op (PlivoResilient.effectiveSettings st)
    "terminateCall"
  match t.result with
  | .ok v =>
      ⟨{ success := true, data := some ⟨v.message⟩, error := none,
         retryCount := some t.invocations, circuitBreakerState := none },
       st, t.invocations⟩
  | .error e =>
      ⟨{ success := false, data := none, error := some e,
         retryCount := none, circuitBreakerState := none },
       st, t.invocations⟩

/-- Closure retried by PlivoResilient.waitForRecording: runs the
delegate and turns a null manager result into a thrown error. -/
def waitWrapped {α : Type} (op : Nat → Except Er (Option α)) : Nat → Except Er α :=
  fun i =>
    match op i with
    | .error e => .error e
    | .ok none => .error "Recording not available after maximum attempts"
    | .ok (some r) => .ok r

/-- PlivoResilient.waitForRecording: the retrying call to `waitWrapped op`
with NO circuit breaker; any final rejection is converted to a null
return.  Output: the value-or-null result, the (unchanged) state and the
delegate invocation count. -/
def PlivoResilient.waitForRecording {α : Type} (st : PlivoState)
    (op : Nat → Except Er (Option α)) : Option α × PlivoState × Nat :=
  let t := executeWithRetry "PlivoResilient" (waitWrapped op)
    (PlivoResilient.effectiveSettings st) "waitForRecording"
  match t.result with
  | .ok r => (some r, st, t.invocations)
  | .error _ => (none, st, t.invocations)

/-- DeepgramResilient.transcribeRecording: transcribe breaker around the
retrying delegate call; the result is passed through unchanged. -/
def DeepgramResilient.transcribeRecording {α : Type} (st : DeepgramState)
    (op : Nat → Except Er α) : MethodOut DeepgramState α :=
  let r := fireEnvelope st.transcribeBreaker
    (executeWithRetry "DeepgramResilient" op (DeepgramResilient.effectiveSettings st)
      "transcribeRecording") id
  ⟨r.env, { st with transcribeBreaker := r.breaker }, r.invocations⟩

/-- DeepgramResilient.transcribeUrl: same shape on the same transcribe
breaker. -/
def DeepgramResilient.transcribeUrl {α : Type} (st : DeepgramState)
    (op : Nat → Except Er α) : MethodOut DeepgramState α :=
  let r := fireEnvelope st.transcribeBreaker
    (executeWithRetry "DeepgramResilient" op (DeepgramResilient.effectiveSettings st)
      "transcribeUrl") id
  ⟨r.env, { st with transcribeBreaker := r.breaker }, r.invocations⟩

/-- DeepgramResilient.transcribeWithInsights: same shape on the same
transcribe breaker. -/
def DeepgramResilient.transcribeWithInsights {α : Type} (st : DeepgramState)
    (op : Nat → Except Er α) : MethodOut DeepgramState α :=
  let r := fireEnvelope st.transcribeBreaker
    (executeWithRetry "DeepgramResilient" op (DeepgramResilient.effectiveSettings st)
      "transcribeWithInsights") id
  ⟨r.env, { st with transcribeBreaker := r.breaker }, r.invocations⟩

/-- DeepgramResilient.transcribeBuffer: same shape on the same transcribe
breaker. -/
def DeepgramResilient.transcribeBuffer {α : Type} (st : DeepgramState)
    (op : Nat → Except Er α) : MethodOut DeepgramState α :=
  let r := fireEnvelope st.transcribeBreaker
    (executeWithRetry "DeepgramResilient" op (DeepgramResilient.effectiveSettings st)
      "transcribeBuffer") id
  ⟨r.env, { st with transcribeBreaker := r.breaker }, r.invocations⟩

/-- Message of an `Except` outcome: the error message, or empty on success. -/
def errOf {α : Type} : Except Er α → Er
  | .error e => e
  | .ok _ => ""

/-- Envelope well-formedness: `data` present and `error` absent exactly
when `success` is true, and `error` present and `data` absent exactly
when `success` is false. -/
def envelopeWF {α : Type} (e : Envelope α) : Prop :=
  e.data.isSome = e.success ∧ e.error.isSome = !e.success

/-- Property of an envelope whose `circuitBreakerState` is the
stringified boolean `opened` flag: it is exactly "true" or "false" and is
never one of the breaker state names. -/
def stringifiedOpenFlag {α : Type} (e : Envelope α) : Prop :=
  (e.circuitBreakerState = some "true" ∨ e.circuitBreakerState = some "false") ∧
  e.circuitBreakerState ≠ some "closed" ∧
  e.circuitBreakerState ≠ some "open" ∧
  e.circuitBreakerState ≠ some "half-open"

theorem recordSample_window (b : BreakerState) (ok : Bool) :
    (recordSample b ok).window = b.window ++ [ok] := rfl

theorem fireEnvelope_ok {α β : Type} (b : BreakerState) (t : RetryTrace α)
    (project : α → β) (v : α) (hopen : b.opened = false) (hres : t.result = .ok v) :
    fireEnvelope b t project =
      ⟨{ success := true, data := some (project v), error := none,
         retryCount := some t.invocations,
         circuitBreakerState := some (boolString (recordSample b true).opened) },
       recordSample b true, t.invocations⟩ := by
  unfold fireEnvelope BreakerState.fire
  rw [hopen, hres]
  simp [exceptOk]

theorem fireEnvelope_err {α β : Type} (b : BreakerState) (t : RetryTrace α)
    (project : α → β) (e : Er) (hopen : b.opened = false) (hres : t.result = .error e) :
    fireEnvelope b t project =
      ⟨{ success := false, data := none, error := some e,
         retryCount := none,
         circuitBreakerState := some (boolString (recordSample b false).opened) },
       recordSample b false, t.invocations⟩ := by
  unfold fireEnvelope BreakerState.fire
  rw [hopen, hres]
  simp [exceptOk]

theorem fireEnvelope_open {α β : Type} (b : BreakerState) (t : RetryTrace α)
    (project : α → β) (hopen : b.opened = true) :
    fireEnvelope b t project =
      ⟨{ success := false, data := none, error := some circuitOpenError,
         retryCount := none, circuitBreakerState := some "true" },
       b, 0⟩ := by
  unfold fireEnvelope BreakerState.fire
  rw [hopen]
  simp [boolString, hopen]

theorem retryGo_invocations_pos {α : Type} (layer : String) (op : Nat → Except Er α)
    (s : RetrySettings) (operationName : String) (fuel attempt : Nat) :
    1 ≤ (retryGo layer op s operationName fuel attempt).invocations := by
  cases fuel with
  | zero =>
      cases h : op attempt with
      | ok v => simp [retryGo, h]
      | error e => simp [retryGo, h]
  | succ fuel =>
      cases h : op attempt with
      | ok v => simp [retryGo, h]
      | error e => simp [retryGo, h]

theorem envelopeWF_fireEnvelope {α β : Type} (b : BreakerState) (t : RetryTrace α)
    (project : α → β) : envelopeWF (fireEnvelope b t project).env := by
  cases hopen : b.opened with
  | true => rw [fireEnvelope_open b t project hopen]; exact ⟨rfl, rfl⟩
  | false =>
      cases hres : t.result with
      | ok v => rw [fireEnvelope_ok b t project v hopen hres]; exact ⟨rfl, rfl⟩
      | error e => rw [fireEnvelope_err b t project e hopen hres]; exact ⟨rfl, rfl⟩

theorem retryCount_fireEnvelope {α β : Type} (b : BreakerState) (t : RetryTrace α)
    (project : α → β) :
    (fireEnvelope b t project).env.retryCount.isSome = (fireEnvelope b t project).env.success := by
  cases hopen : b.opened with
  | true => rw [fireEnvelope_open b t project hopen]; rfl
  | false =>
      cases hres : t.result with
      | ok v => rw [fireEnvelope_ok b t project v hopen hres]; rfl
      | error e => rw [fireEnvelope_err b t project e hopen hres]; rfl

theorem stringifiedOpenFlag_fireEnvelope {α β : Type} (b : BreakerState) (t : RetryTrace α)
    (project : α → β) : stringifiedOpenFlag (fireEnvelope b t project).env := by
  have hbs : ∀ x : Bool, boolString x = "true" ∨ boolString x = "false" := by
    intro x; cases x <;> simp [boolString]
  cases hopen : b.opened with
  | true =>
      rw [fireEnvelope_open b t project hopen]
      refine ⟨Or.inl rfl, by simp, by simp, by simp⟩
  | false =>
      cases hres : t.result with
      | ok v =>
          rw [fireEnvelope_ok b t project v hopen hres]
          refine ⟨?_, ?_, ?_, ?_⟩
          · rcases hbs (recordSample b true).opened with h | h <;> simp [h]
          all_goals rcases hbs (recordSample b true).opened with h | h <;> simp [h]
      | error e =>
          rw [fireEnvelope_err b t project e hopen hres]
          refine ⟨?_, ?_, ?_, ?_⟩
          · rcases hbs (recordSample b false).opened with h | h <;> simp [h]
          all_goals rcases hbs (recordSample b false).opened with h | h <;> simp [h]

/-- C2: an operation that rejects on every attempt is invoked exactly
`maxRetries + 1` times by the retry engine, and `executeWithRetry` then
rejects with the error observed on the final attempt (0-based attempt
index `maxRetries`). -/
theorem executeWithRetry_exhausts_and_rethrows {α : Type} (layer operationName : String)
    (op : Nat → Except Er α) (s : RetrySettings)
    (hop : ∀ j, ∃ e, op j = .error e) :
    (executeWithRetry layer op s operationName).invocations = s.maxRetries + 1 ∧
    (executeWithRetry layer op s operationName).result = op s.maxRetries := by
  obtain ⟨hinv, hres, _, _⟩ := retryGo_allFail layer op s operationName hop s.maxRetries 0
  exact ⟨hinv, by simpa [executeWithRetry] using hres⟩

/-- Behaviour of a delegate that rejects on every attempt. -/
def alwaysFail : Nat → Except Er String := fun _ => .error "boom"

/-- Witness for C2 at a concrete input: maxRetries = 3 gives exactly 4
invocations and the final error. -/
theorem executeWithRetry_exhausts_witness :
    (executeWithRetry "PlivoResilient" alwaysFail ⟨3, 1000, 2, 10000⟩ "makeCall").invocations
        = 3 + 1 ∧
    (executeWithRetry "PlivoResilient" alwaysFail ⟨3, 1000, 2, 10000⟩ "makeCall").result
        = alwaysFail 3 :=
  executeWithRetry_exhausts_and_rethrows "PlivoResilient" "makeCall" alwaysFail
    ⟨3, 1000, 2, 10000⟩ (fun _ => ⟨"boom", rfl⟩)

/-- C3: the delays the retry engine sleeps are exactly
`computeDelay 0, computeDelay 1, …` in order; `computeDelay attemptIndex`
equals `min(initialDelay * multiplier ^ attemptIndex, maxDelay)`, is
non-decreasing in `attemptIndex` (for non-negative initial delay and
multiplier ≥ 1) and never exceeds `maxDelay`. -/
theorem computeDelay_spec {α : Type} (s : RetrySettings) (layer operationName : String)
    (op : Nat → Except Er α) (i : Nat)
    (hrd : 0 ≤ s.retryDelay) (hrm : 1 ≤ s.retryMultiplier)
    (hop : ∀ j, ∃ e, op j = .error e) :
    (executeWithRetry layer op s operationName).delays =
      (List.range s.maxRetries).map
        (computeDelay s.retryDelay s.retryMultiplier s.maxRetryDelay) ∧
    computeDelay s.retryDelay s.retryMultiplier s.maxRetryDelay i =
      min (s.retryDelay * s.retryMultiplier ^ i) s.maxRetryDelay ∧
    computeDelay s.retryDelay s.retryMultiplier s.maxRetryDelay i ≤
      computeDelay s.retryDelay s.retryMultiplier s.maxRetryDelay (i + 1) ∧
    computeDelay s.retryDelay s.retryMultiplier s.maxRetryDelay i ≤ s.maxRetryDelay := by
  obtain ⟨_, _, hdel, _⟩ := retryGo_allFail layer op s operationName hop s.maxRetries 0
  refine ⟨by simpa [executeWithRetry] using hdel, rfl, ?_, min_le_right _ _⟩
  apply min_le_min _ le_rfl
  apply mul_le_mul_of_nonneg_left _ hrd
  exact pow_le_pow_right₀ hrm (Nat.le_succ i)

/-- Witness for C3 at a concrete input: the Plivo defaults 1000ms, ×2,
cap 10000ms, with three retries. -/
theorem computeDelay_spec_witness :
    (executeWithRetry "PlivoResilient" alwaysFail ⟨3, 1000, 2, 10000⟩ "makeCall").delays =
      (List.range 3).map (computeDelay 1000 2 10000) ∧
    computeDelay 1000 2 10000 2 = min (1000 * 2 ^ 2) 10000 ∧
    computeDelay 1000 2 10000 2 ≤ computeDelay 1000 2 10000 3 ∧
    computeDelay 1000 2 10000 2 ≤ 10000 :=
  computeDelay_spec ⟨3, 1000, 2, 10000⟩ "PlivoResilient" "makeCall" alwaysFail 2
    (by decide) (by decide) (fun _ => ⟨"boom", rfl⟩)

/-- C7 counterexample: with a delegate that always rejects with message
"boom", the retry engine rejects with exactly that error — identical for
any operation name — and the operation name "initiateRecordedCall" does
not occur in the rejected message, so the rejection is not annotated with
the operation name. -/
theorem retry_error_not_annotated_cex :
    (executeWithRetry "PlivoResilient" alwaysFail ⟨3, 1000, 2, 10000⟩
        "initiateRecordedCall").result = .error "boom" ∧
    (executeWithRetry "PlivoResilient" alwaysFail ⟨3, 1000, 2, 10000⟩
        "someOtherName").result = .error "boom" ∧
    ¬ "initiateRecordedCall".toList <:+: "boom".toList := by
  exact ⟨rfl, rfl, by decide⟩

/-- C7 amended: on exhausting all attempts the retry engine rejects with
the unmodified last observed error — the rejected value does not depend on
the operation name at all — and the operation name is carried only by the
exhaustion log event. -/
theorem retry_error_unmodified_and_logged {α : Type}
    (layer operationName otherName : String)
    (op : Nat → Except Er α) (s : RetrySettings)
    (hop : ∀ j, ∃ e, op j = .error e) :
    (executeWithRetry layer op s operationName).result = op s.maxRetries ∧
    (executeWithRetry layer op s otherName).result = op s.maxRetries ∧
    LogEvent.exhausted layer operationName (s.maxRetries + 1) (errOf (op s.maxRetries))
      ∈ (executeWithRetry layer op s operationName).logs := by
  obtain ⟨_, hres, _, e, he, hmem⟩ := retryGo_allFail layer op s operationName hop s.maxRetries 0
  obtain ⟨_, hres2, _, _⟩ := retryGo_allFail layer op s otherName hop s.maxRetries 0
  refine ⟨by simpa [executeWithRetry] using hres, by simpa [executeWithRetry] using hres2, ?_⟩
  have he' : op s.maxRetries = Except.error e := by simpa using he
  have herr : errOf (op s.maxRetries) = e := by rw [he']; rfl
  rw [herr]
  simpa [executeWithRetry] using hmem

/-- Witness for the amended C7 at a concrete input. -/
theorem retry_error_unmodified_witness :
    (executeWithRetry "PlivoResilient" alwaysFail ⟨2, 1000, 2, 10000⟩
        "terminateCall").result = alwaysFail 2 ∧
    (executeWithRetry "PlivoResilient" alwaysFail ⟨2, 1000, 2, 10000⟩
        "someOtherName").result = alwaysFail 2 ∧
    LogEvent.exhausted "PlivoResilient" "terminateCall" (2 + 1) (errOf (alwaysFail 2))
      ∈ (executeWithRetry "PlivoResilient" alwaysFail ⟨2, 1000, 2, 10000⟩
          "terminateCall").logs :=
  retry_error_unmodified_and_logged "PlivoResilient" "terminateCall" "someOtherName"
    alwaysFail ⟨2, 1000, 2, 10000⟩ (fun _ => ⟨"boom", rfl⟩)

theorem executeWithRetry_succeeds {α : Type} (layer operationName : String)
    (op : Nat → Except Er α) (s : RetrySettings) (k : Nat) (v : α)
    (hk : k ≤ s.maxRetries)
    (hfail : ∀ i, i < k → ∃ e, op i = .error e)
    (hsucc : op k = .ok v) :
    (executeWithRetry layer op s operationName).result = .ok v ∧
    (executeWithRetry layer op s operationName).invocations = k + 1 := by
  have hfail' : ∀ i, i < k → ∃ e, op (0 + i) = .error e := by simpa using hfail
  have hsucc' : op (0 + k) = .ok v := by simpa using hsucc
  exact retryGo_succeed layer op s operationName v k 0 s.maxRetries hfail' hsucc' hk

/-- C4: a facade call whose delegate fails `k ≤ maxRetries` times and then
succeeds returns a success envelope carrying the delegate's value and
`retryCount = k + 1`, and the delegate was invoked exactly `k + 1` times
(no invocation after the first success). -/
theorem initiateRecordedCall_retry_success (st : PlivoState)
    (op : Nat → Except Er InitiateRecordedCallData) (k : Nat)
    (v : InitiateRecordedCallData)
    (hopen : st.makeCallBreaker.opened = false)
    (hk : k ≤ (PlivoResilient.effectiveSettings st).maxRetries)
    (hfail : ∀ i, i < k → ∃ e, op i = .error e)
    (hsucc : op k = .ok v) :
    (PlivoResilient.initiateRecordedCall st op).env.success = true ∧
    (PlivoResilient.initiateRecordedCall st op).env.data
        = some ⟨v.callUuid, v.message, v.apiId⟩ ∧
    (PlivoResilient.initiateRecordedCall st op).env.retryCount = some (k + 1) ∧
    (PlivoResilient.initiateRecordedCall st op).invocations = k + 1 := by
  obtain ⟨hres, hinv⟩ := executeWithRetry_succeeds "PlivoResilient" "initiateRecordedCall"
    op (PlivoResilient.effectiveSettings st) k v hk hfail hsucc
  simp only [PlivoResilient.initiateRecordedCall]
  rw [fireEnvelope_ok _ _ _ v hopen hres]
  exact ⟨rfl, rfl, by rw [hinv], by rw [hinv]⟩

/-- Delegate behaviour that fails twice and then succeeds. -/
def iv : InitiateRecordedCallData := ⟨"uuid-1", "call initiated", "api-1"⟩

/-- Behaviour failing on the first two invocations, succeeding after. -/
def failTwiceThenOk : Nat → Except Er InitiateRecordedCallData :=
  fun i => if i < 2 then .error "transient" else .ok iv

/-- A freshly constructed PlivoResilient with the default settings. -/
def stdPlivo : PlivoState := PlivoResilient.init ⟨3, 1000, 2, 10000⟩ 50

/-- A freshly constructed DeepgramResilient with the default settings. -/
def stdDeepgram : DeepgramState := DeepgramResilient.init ⟨3, 2000, 2, 20000⟩ 50

/-- Witness for C4 at a concrete input: two failures then success gives
`retryCount = 3` and three delegate invocations. -/
theorem initiateRecordedCall_retry_success_witness :
    (PlivoResilient.initiateRecordedCall stdPlivo failTwiceThenOk).env.success = true ∧
    (PlivoResilient.initiateRecordedCall stdPlivo failTwiceThenOk).env.data
        = some ⟨iv.callUuid, iv.message, iv.apiId⟩ ∧
    (PlivoResilient.initiateRecordedCall stdPlivo failTwiceThenOk).env.retryCount
        = some (2 + 1) ∧
    (PlivoResilient.initiateRecordedCall stdPlivo failTwiceThenOk).invocations = 2 + 1 :=
  initiateRecordedCall_retry_success stdPlivo failTwiceThenOk 2 iv rfl (by decide)
    (fun i hi => ⟨"transient", by simp [failTwiceThenOk, hi]⟩)
    (by simp [failTwiceThenOk])

/-- C1: one logical facade call contributes exactly one sample to its
breaker's rolling window: a call whose delegate fails `k ≤ maxRetries`
times and then succeeds appends exactly one success sample (while the
delegate ran `k + 1` times), and a call that exhausts every retry appends
exactly one failure sample (while the delegate ran `maxRetries + 1`
times). -/
theorem breaker_one_sample_per_logical_call (st : PlivoState) (dst : DeepgramState)
    (op : Nat → Except Er InitiateRecordedCallData) (dop : Nat → Except Er String)
    (k : Nat) (v : InitiateRecordedCallData)
    (hP : st.makeCallBreaker.opened = false)
    (hD : dst.transcribeBreaker.opened = false)
    (hk : k ≤ (PlivoResilient.effectiveSettings st).maxRetries)
    (hfail : ∀ i, i < k → ∃ e, op i = .error e)
    (hsucc : op k = .ok v)
    (hdfail : ∀ j, ∃ e, dop j = .error e) :
    (PlivoResilient.initiateRecordedCall st op).state.makeCallBreaker.window
        = st.makeCallBreaker.window ++ [true] ∧
    (PlivoResilient.initiateRecordedCall st op).invocations = k + 1 ∧
    (DeepgramResilient.transcribeRecording dst dop).state.transcribeBreaker.window
        = dst.transcribeBreaker.window ++ [false] ∧
    (DeepgramResilient.transcribeRecording dst dop).invocations
        = (DeepgramResilient.effectiveSettings dst).maxRetries + 1 := by
  obtain ⟨hres, hinv⟩ := executeWithRetry_succeeds "PlivoResilient" "initiateRecordedCall"
    op (PlivoResilient.effectiveSettings st) k v hk hfail hsucc
  obtain ⟨hinv2, hres2, _, e, he2, _⟩ := retryGo_allFail "DeepgramResilient" dop
    (DeepgramResilient.effectiveSettings dst) "transcribeRecording" hdfail
    (DeepgramResilient.effectiveSettings dst).maxRetries 0
  have hres2' : (executeWithRetry "DeepgramResilient" dop
      (DeepgramResilient.effectiveSettings dst) "transcribeRecording").result
      = Except.error e := hres2.trans he2
  refine ⟨?_, ?_, ?_, ?_⟩
  · simp only [PlivoResilient.initiateRecordedCall]
    rw [fireEnvelope_ok _ _ _ v hP hres]
    rfl
  · simp only [PlivoResilient.initiateRecordedCall]
    rw [fireEnvelope_ok _ _ _ v hP hres]
    exact hinv
  · simp only [DeepgramResilient.transcribeRecording]
    rw [fireEnvelope_err _ _ _ e hD hres2']
    rfl
  · simp only [DeepgramResilient.transcribeRecording]
    rw [fireEnvelope_err _ _ _ e hD hres2']
    exact hinv2

/-- Transcription delegate behaviour that rejects on every attempt. -/
def dAlwaysFail : Nat → Except Er String := fun _ => .error "deepgram down"

/-- Witness for C1 at a concrete input: retried-then-successful call adds
one success sample; exhausted call adds one failure sample after 4
delegate invocations. -/
theorem breaker_one_sample_witness :
    (PlivoResilient.initiateRecordedCall stdPlivo failTwiceThenOk).state.makeCallBreaker.window
        = stdPlivo.makeCallBreaker.window ++ [true] ∧
    (PlivoResilient.initiateRecordedCall stdPlivo failTwiceThenOk).invocations = 2 + 1 ∧
    (DeepgramResilient.transcribeRecording stdDeepgram dAlwaysFail).state.transcribeBreaker.window
        = stdDeepgram.transcribeBreaker.window ++ [false] ∧
    (DeepgramResilient.transcribeRecording stdDeepgram dAlwaysFail).invocations
        = (DeepgramResilient.effectiveSettings stdDeepgram).maxRetries + 1 :=
  breaker_one_sample_per_logical_call stdPlivo stdDeepgram failTwiceThenOk dAlwaysFail 2 iv
    rfl rfl (by decide)
    (fun i hi => ⟨"transient", by simp [failTwiceThenOk, hi]⟩)
    (by simp [failTwiceThenOk])
    (fun _ => ⟨"deepgram down", rfl⟩)

theorem envelopeWF_terminateCall (st : PlivoState) (op : Nat → Except Er TerminateData) :
    envelopeWF (PlivoResilient.terminateCall st op).env := by
  cases h : (executeWithRetry "PlivoResilient" op (PlivoResilient.effectiveSettings st)
      "terminateCall").result with
  | ok v => simp only [PlivoResilient.terminateCall, h]; exact ⟨rfl, rfl⟩
  | error e => simp only [PlivoResilient.terminateCall, h]; exact ⟨rfl, rfl⟩

/-- C5: every public facade method resolves with a well-formed envelope
for every state and every delegate behaviour (success, upstream
rejection, retry exhaustion, or circuit-open rejection): `data` is
present and `error` absent exactly when `success` is true, and `error` is
present and `data` absent exactly when `success` is false. -/
theorem facade_never_throws {α : Type} (st : PlivoState) (dst : DeepgramState)
    (op1 : Nat → Except Er InitiateRecordedCallData)
    (op2 : Nat → Except Er MakeCallData)
    (op3 : Nat → Except Er α) (op4 : Nat → Except Er TerminateData)
    (dop1 dop2 dop3 dop4 : Nat → Except Er α) :
    envelopeWF (PlivoResilient.initiateRecordedCall st op1).env ∧
    envelopeWF (PlivoResilient.makeCall st op2).env ∧
    envelopeWF (PlivoResilient.getCallDetails st op3).env ∧
    envelopeWF (PlivoResilient.terminateCall st op4).env ∧
    envelopeWF (DeepgramResilient.transcribeRecording dst dop1).env ∧
    envelopeWF (DeepgramResilient.transcribeUrl dst dop2).env ∧
    envelopeWF (DeepgramResilient.transcribeWithInsights dst dop3).env ∧
    envelopeWF (DeepgramResilient.transcribeBuffer dst dop4).env :=
  ⟨envelopeWF_fireEnvelope _ _ _, envelopeWF_fireEnvelope _ _ _,
   envelopeWF_fireEnvelope _ _ _, envelopeWF_terminateCall st op4,
   envelopeWF_fireEnvelope _ _ _, envelopeWF_fireEnvelope _ _ _,
   envelopeWF_fireEnvelope _ _ _, envelopeWF_fireEnvelope _ _ _⟩

theorem retryCount_terminateCall (st : PlivoState) (op : Nat → Except Er TerminateData) :
    (PlivoResilient.terminateCall st op).env.retryCount.isSome
      = (PlivoResilient.terminateCall st op).env.success := by
  cases h : (executeWithRetry "PlivoResilient" op (PlivoResilient.effectiveSettings st)
      "terminateCall").result with
  | ok v => simp only [PlivoResilient.terminateCall, h]; rfl
  | error e => simp only [PlivoResilient.terminateCall, h]; rfl

/-- C10: across all facade methods, the envelope carries a `retryCount`
field exactly when `success` is true; in particular a failure envelope
never contains `retryCount`, no matter how many attempts were consumed. -/
theorem failure_envelope_no_retryCount {α : Type} (st : PlivoState) (dst : DeepgramState)
    (op1 : Nat → Except Er InitiateRecordedCallData)
    (op2 : Nat → Except Er MakeCallData)
    (op3 : Nat → Except Er α) (op4 : Nat → Except Er TerminateData)
    (dop1 dop2 dop3 dop4 : Nat → Except Er α) :
    (PlivoResilient.initiateRecordedCall st op1).env.retryCount.isSome
        = (PlivoResilient.initiateRecordedCall st op1).env.success ∧
    (PlivoResilient.makeCall st op2).env.retryCount.isSome
        = (PlivoResilient.makeCall st op2).env.success ∧
    (PlivoResilient.getCallDetails st op3).env.retryCount.isSome
        = (PlivoResilient.getCallDetails st op3).env.success ∧
    (PlivoResilient.terminateCall st op4).env.retryCount.isSome
        = (PlivoResilient.terminateCall st op4).env.success ∧
    (DeepgramResilient.transcribeRecording dst dop1).env.retryCount.isSome
        = (DeepgramResilient.transcribeRecording dst dop1).env.success ∧
    (DeepgramResilient.transcribeUrl dst dop2).env.retryCount.isSome
        = (DeepgramResilient.transcribeUrl dst dop2).env.success ∧
    (DeepgramResilient.transcribeWithInsights dst dop3).env.retryCount.isSome
        = (DeepgramResilient.transcribeWithInsights dst dop3).env.success ∧
    (DeepgramResilient.transcribeBuffer dst dop4).env.retryCount.isSome
        = (DeepgramResilient.transcribeBuffer dst dop4).env.success :=
  ⟨retryCount_fireEnvelope _ _ _, retryCount_fireEnvelope _ _ _,
   retryCount_fireEnvelope _ _ _, retryCount_terminateCall st op4,
   retryCount_fireEnvelope _ _ _, retryCount_fireEnvelope _ _ _,
   retryCount_fireEnvelope _ _ _, retryCount_fireEnvelope _ _ _⟩

theorem cbs_samples_breaker {α β : Type} (b : BreakerState) (t : RetryTrace α)
    (project : α → β) :
    (fireEnvelope b t project).env.circuitBreakerState
      = some (boolString (fireEnvelope b t project).breaker.opened) := by
  cases hopen : b.opened with
  | true =>
      rw [fireEnvelope_open b t project hopen]
      simp [boolString, hopen]
  | false =>
      cases hres : t.result with
      | ok v => rw [fireEnvelope_ok b t project v hopen hres]
      | error e => rw [fireEnvelope_err b t project e hopen hres]

/-- C9: in every envelope produced by a breaker-gated facade method, the
`circuitBreakerState` field is the stringified boolean `opened` flag of
the method's breaker sampled when the envelope is built: it is always
exactly "true" or "false" and never one of the state names "closed",
"open", or "half-open". -/
theorem circuitBreakerState_stringified_bool {α : Type} (st : PlivoState)
    (dst : DeepgramState)
    (op1 : Nat → Except Er InitiateRecordedCallData)
    (op2 : Nat → Except Er MakeCallData)
    (op3 : Nat → Except Er α)
    (dop1 dop2 dop3 dop4 : Nat → Except Er α) :
    stringifiedOpenFlag (PlivoResilient.initiateRecordedCall st op1).env ∧
    stringifiedOpenFlag (PlivoResilient.makeCall st op2).env ∧
    stringifiedOpenFlag (PlivoResilient.getCallDetails st op3).env ∧
    stringifiedOpenFlag (DeepgramResilient.transcribeRecording dst dop1).env ∧
    stringifiedOpenFlag (DeepgramResilient.transcribeUrl dst dop2).env ∧
    stringifiedOpenFlag (DeepgramResilient.transcribeWithInsights dst dop3).env ∧
    stringifiedOpenFlag (DeepgramResilient.transcribeBuffer dst dop4).env ∧
    (PlivoResilient.initiateRecordedCall st op1).env.circuitBreakerState
      = some (boolString
          (PlivoResilient.initiateRecordedCall st op1).state.makeCallBreaker.opened) ∧
    (DeepgramResilient.transcribeRecording dst dop1).env.circuitBreakerState
      = some (boolString
          (DeepgramResilient.transcribeRecording dst dop1).state.transcribeBreaker.opened) :=
  ⟨stringifiedOpenFlag_fireEnvelope _ _ _, stringifiedOpenFlag_fireEnvelope _ _ _,
   stringifiedOpenFlag_fireEnvelope _ _ _, stringifiedOpenFlag_fireEnvelope _ _ _,
   stringifiedOpenFlag_fireEnvelope _ _ _, stringifiedOpenFlag_fireEnvelope _ _ _,
   stringifiedOpenFlag_fireEnvelope _ _ _,
   cbs_samples_breaker _ _ _, cbs_samples_breaker _ _ _⟩

/-- A PlivoResilient state whose breakers are all open. -/
def allOpenPlivo : PlivoState :=
  ⟨⟨"makeCall", 50, true, [false]⟩, ⟨"getCallDetails", 50, true, [false]⟩,
   ⟨3, 1000, 2, 10000⟩⟩

/-- A DeepgramResilient state whose breaker is open. -/
def allOpenDeepgram : DeepgramState :=
  ⟨⟨"transcribe", 50, true, [false]⟩, ⟨3, 2000, 2, 20000⟩⟩

/-- C8 counterexample: with every breaker of the PlivoResilient instance
in the open state, terminateCall still invokes its delegate (once, and
succeeds) and waitForRecording still invokes its delegate — so there is
no breaker whose open state prevents the delegate from being invoked for
these two capabilities. -/
theorem terminateCall_bypasses_breaker_cex :
    allOpenPlivo.makeCallBreaker.opened = true ∧
    allOpenPlivo.getCallDetailsBreaker.opened = true ∧
    (PlivoResilient.terminateCall allOpenPlivo (fun _ => .ok ⟨"terminated"⟩)).invocations
        = 1 ∧
    (PlivoResilient.terminateCall allOpenPlivo (fun _ => .ok ⟨"terminated"⟩)).env.success
        = true ∧
    (PlivoResilient.waitForRecording allOpenPlivo
        (fun _ => .ok (some "record-url"))).2.2 = 1 ∧
    (PlivoResilient.waitForRecording allOpenPlivo
        (fun _ => .ok (some "record-url"))).1 = some "record-url" :=
  ⟨rfl, rfl, rfl, rfl, rfl, rfl⟩

theorem fireEnvelope_open_invocations {α β : Type} (b : BreakerState) (t : RetryTrace α)
    (project : α → β) (hopen : b.opened = true) :
    (fireEnvelope b t project).invocations = 0 := by
  rw [fireEnvelope_open b t project hopen]

theorem fireEnvelope_open_error {α β : Type} (b : BreakerState) (t : RetryTrace α)
    (project : α → β) (hopen : b.opened = true) :
    (fireEnvelope b t project).env.error = some circuitOpenError := by
  rw [fireEnvelope_open b t project hopen]

theorem terminateCall_state_and_invocations (st : PlivoState)
    (op : Nat → Except Er TerminateData) :
    (PlivoResilient.terminateCall st op).state = st ∧
    (PlivoResilient.terminateCall st op).invocations
      = (executeWithRetry "PlivoResilient" op (PlivoResilient.effectiveSettings st)
          "terminateCall").invocations := by
  cases h : (executeWithRetry "PlivoResilient" op (PlivoResilient.effectiveSettings st)
      "terminateCall").result with
  | ok v => refine ⟨?_, ?_⟩ <;> simp only [PlivoResilient.terminateCall, h]
  | error e => refine ⟨?_, ?_⟩ <;> simp only [PlivoResilient.terminateCall, h]

theorem waitForRecording_state_and_invocations {α : Type} (st : PlivoState)
    (op : Nat → Except Er (Option α)) :
    (PlivoResilient.waitForRecording st op).2.1 = st ∧
    (PlivoResilient.waitForRecording st op).2.2
      = (executeWithRetry "PlivoResilient" (waitWrapped op)
          (PlivoResilient.effectiveSettings st) "waitForRecording").invocations := by
  cases h : (executeWithRetry "PlivoResilient" (waitWrapped op)
      (PlivoResilient.effectiveSettings st) "waitForRecording").result with
  | ok v => refine ⟨?_, ?_⟩ <;> simp only [PlivoResilient.waitForRecording, h]
  | error e => refine ⟨?_, ?_⟩ <;> simp only [PlivoResilient.waitForRecording, h]

/-- C8 amended: the breaker-gated capabilities (initiateRecordedCall,
makeCall, getCallDetails and the four transcription methods) fire their
breaker around the retrying execution, so an open breaker yields a
fail-fast envelope with zero delegate invocations; terminateCall and
waitForRecording instead call the retry engine directly with no breaker:
whatever the breaker states, they invoke the delegate at least once and
leave the instance state (hence every breaker) unchanged. -/
theorem breaker_gating_amended {α : Type} (st : PlivoState) (dst : DeepgramState)
    (op1 : Nat → Except Er InitiateRecordedCallData)
    (op2 : Nat → Except Er MakeCallData)
    (op3 : Nat → Except Er α) (op4 : Nat → Except Er TerminateData)
    (op5 : Nat → Except Er (Option α))
    (dop1 dop2 dop3 dop4 : Nat → Except Er α)
    (hmc : st.makeCallBreaker.opened = true)
    (hgc : st.getCallDetailsBreaker.opened = true)
    (ht : dst.transcribeBreaker.opened = true) :
    (PlivoResilient.initiateRecordedCall st op1).invocations = 0 ∧
    (PlivoResilient.initiateRecordedCall st op1).env.error = some circuitOpenError ∧
    (PlivoResilient.makeCall st op2).invocations = 0 ∧
    (PlivoResilient.getCallDetails st op3).invocations = 0 ∧
    (DeepgramResilient.transcribeRecording dst dop1).invocations = 0 ∧
    (DeepgramResilient.transcribeUrl dst dop2).invocations = 0 ∧
    (DeepgramResilient.transcribeWithInsights dst dop3).invocations = 0 ∧
    (DeepgramResilient.transcribeBuffer dst dop4).invocations = 0 ∧
    1 ≤ (PlivoResilient.terminateCall st op4).invocations ∧
    (PlivoResilient.terminateCall st op4).state = st ∧
    1 ≤ (PlivoResilient.waitForRecording st op5).2.2 ∧
    (PlivoResilient.waitForRecording st op5).2.1 = st := by
  obtain ⟨hts, hti⟩ := terminateCall_state_and_invocations st op4
  obtain ⟨hws, hwi⟩ := waitForRecording_state_and_invocations st op5
  refine ⟨fireEnvelope_open_invocations _ _ _ hmc, fireEnvelope_open_error _ _ _ hmc,
    fireEnvelope_open_invocations _ _ _ hmc, fireEnvelope_open_invocations _ _ _ hgc,
    fireEnvelope_open_invocations _ _ _ ht, fireEnvelope_open_invocations _ _ _ ht,
    fireEnvelope_open_invocations _ _ _ ht, fireEnvelope_open_invocations _ _ _ ht,
    ?_, hts, ?_, hws⟩
  · rw [hti]; exact retryGo_invocations_pos _ _ _ _ _ _
  · rw [hwi]; exact retryGo_invocations_pos _ _ _ _ _ _

/-- Witness for the amended C8 at a concrete input: both instances with
all breakers open. -/
theorem breaker_gating_amended_witness :
    (PlivoResilient.initiateRecordedCall allOpenPlivo failTwiceThenOk).invocations = 0 ∧
    (PlivoResilient.initiateRecordedCall allOpenPlivo failTwiceThenOk).env.error
        = some circuitOpenError ∧
    (PlivoResilient.makeCall allOpenPlivo (fun _ => .ok ⟨"uuid", "queued", "api"⟩)).invocations
        = 0 ∧
    (PlivoResilient.getCallDetails allOpenPlivo (fun _ => .ok "details")).invocations = 0 ∧
    (DeepgramResilient.transcribeRecording allOpenDeepgram (fun _ => .ok "t")).invocations
        = 0 ∧
    (DeepgramResilient.transcribeUrl allOpenDeepgram (fun _ => .ok "t")).invocations = 0 ∧
    (DeepgramResilient.transcribeWithInsights allOpenDeepgram
        (fun _ => .ok "t")).invocations = 0 ∧
    (DeepgramResilient.transcribeBuffer allOpenDeepgram (fun _ => .ok "t")).invocations
        = 0 ∧
    1 ≤ (PlivoResilient.terminateCall allOpenPlivo (fun _ => .ok ⟨"done"⟩)).invocations ∧
    (PlivoResilient.terminateCall allOpenPlivo (fun _ => .ok ⟨"done"⟩)).state
        = allOpenPlivo ∧
    1 ≤ (PlivoResilient.waitForRecording allOpenPlivo
          (fun _ => .ok (some "rec"))).2.2 ∧
    (PlivoResilient.waitForRecording allOpenPlivo (fun _ => .ok (some "rec"))).2.1
        = allOpenPlivo :=
  breaker_gating_amended allOpenPlivo allOpenDeepgram failTwiceThenOk
    (fun _ => .ok ⟨"uuid", "queued", "api"⟩) (fun _ => .ok "details")
    (fun _ => .ok ⟨"done"⟩) (fun _ => .ok (some "rec"))
    (fun _ => .ok "t") (fun _ => .ok "t") (fun _ => .ok "t") (fun _ => .ok "t")
    rfl rfl rfl

/-- Combined state of the two facade instances, to express independence
across operation kinds. -/
structure World where
  plivo : PlivoState
  deepgram : DeepgramState
deriving DecidableEq

/-- One call on the PlivoResilient facade (the delegate behaviour is the
constructor argument). -/
inductive PlivoCall where
  | initiate (op : Nat → Except Er InitiateRecordedCallData)
  | mkCall (op : Nat → Except Er MakeCallData)
  | details (op : Nat → Except Er String)
  | terminate (op : Nat → Except Er TerminateData)

/-- One call on the DeepgramResilient facade. -/
inductive DeepgramCall where
  | recording (op : Nat → Except Er String)
  | url (op : Nat → Except Er String)
  | insights (op : Nat → Except Er String)
  | buffer (op : Nat → Except Er String)

/-- Effect of one PlivoResilient facade call on the combined state. -/
def World.stepPlivo (w : World) : PlivoCall → World
  | .initiate op => { w with plivo := (PlivoResilient.initiateRecordedCall w.plivo op).state }
  | .mkCall op => { w with plivo := (PlivoResilient.makeCall w.plivo op).state }
  | .details op => { w with plivo := (PlivoResilient.getCallDetails w.plivo op).state }
  | .terminate op => { w with plivo := (PlivoResilient.terminateCall w.plivo op).state }

/-- Effect of one DeepgramResilient facade call on the combined state. -/
def World.stepDeepgram (w : World) : DeepgramCall → World
  | .recording op => { w with deepgram := (DeepgramResilient.transcribeRecording w.deepgram op).state }
  | .url op => { w with deepgram := (DeepgramResilient.transcribeUrl w.deepgram op).state }
  | .insights op => { w with deepgram := (DeepgramResilient.transcribeWithInsights w.deepgram op).state }
  | .buffer op => { w with deepgram := (DeepgramResilient.transcribeBuffer w.deepgram op).state }

/-- A sequence of PlivoResilient facade calls. -/
def World.runPlivo (w : World) (cs : List PlivoCall) : World :=
  cs.foldl World.stepPlivo w

/-- A sequence of DeepgramResilient facade calls. -/
def World.runDeepgram (w : World) (cs : List DeepgramCall) : World :=
  cs.foldl World.stepDeepgram w

theorem stepDeepgram_plivo (w : World) (c : DeepgramCall) :
    (w.stepDeepgram c).plivo = w.plivo := by
  cases c <;> rfl

theorem stepPlivo_deepgram (w : World) (c : PlivoCall) :
    (w.stepPlivo c).deepgram = w.deepgram := by
  cases c <;> rfl

theorem runDeepgram_plivo (cs : List DeepgramCall) :
    ∀ w : World, (w.runDeepgram cs).plivo = w.plivo := by
  induction cs with
  | nil => intro w; rfl
  | cons c cs ih =>
      intro w
      calc (w.runDeepgram (c :: cs)).plivo
          = ((w.stepDeepgram c).runDeepgram cs).plivo := rfl
        _ = (w.stepDeepgram c).plivo := ih _
        _ = w.plivo := stepDeepgram_plivo w c

theorem runPlivo_deepgram (cs : List PlivoCall) :
    ∀ w : World, (w.runPlivo cs).deepgram = w.deepgram := by
  induction cs with
  | nil => intro w; rfl
  | cons c cs ih =>
      intro w
      calc (w.runPlivo (c :: cs)).deepgram
          = ((w.stepPlivo c).runPlivo cs).deepgram := rfl
        _ = (w.stepPlivo c).deepgram := ih _
        _ = w.deepgram := stepPlivo_deepgram w c

/-- C6: the breakers of distinct operation kinds are fully independent:
any sequence of transcription calls leaves both Plivo breakers (state and
rolling statistics) untouched, any sequence of Plivo calls leaves the
transcribe breaker untouched, and even after arbitrary transcription
activity (e.g. having driven the transcribe breaker open) a place-call
request whose own makeCall breaker is closed is not failed fast: its
delegate runs and it succeeds. -/
theorem breaker_independence (w : World) (ds : List DeepgramCall) (ps : List PlivoCall)
    (op : Nat → Except Er MakeCallData) (v : MakeCallData)
    (hopen : w.plivo.makeCallBreaker.opened = false)
    (hsucc : ∀ i, op i = .ok v) :
    (w.runDeepgram ds).plivo = w.plivo ∧
    (w.runPlivo ps).deepgram = w.deepgram ∧
    (PlivoResilient.makeCall (w.runDeepgram ds).plivo op).env.success = true ∧
    (PlivoResilient.makeCall (w.runDeepgram ds).plivo op).invocations = 1 := by
  have hplivo := runDeepgram_plivo ds w
  obtain ⟨hres, hinv⟩ := executeWithRetry_succeeds "PlivoResilient" "makeCall" op
    (PlivoResilient.effectiveSettings (w.runDeepgram ds).plivo) 0 v (Nat.zero_le _)
    (fun i hi => absurd hi (Nat.not_lt_zero i)) (hsucc 0)
  have hopen' : (w.runDeepgram ds).plivo.makeCallBreaker.opened = false := by
    rw [hplivo]; exact hopen
  refine ⟨hplivo, runPlivo_deepgram ps w, ?_, ?_⟩
  · simp only [PlivoResilient.makeCall]
    rw [fireEnvelope_ok _ _ _ v hopen' hres]
  · simp only [PlivoResilient.makeCall]
    rw [fireEnvelope_ok _ _ _ v hopen' hres]
    exact hinv

/-- A combined world of two freshly constructed facades. -/
def stdWorld : World := ⟨stdPlivo, stdDeepgram⟩

/-- Always-succeeding place-call delegate behaviour. -/
def okCall : Nat → Except Er MakeCallData := fun _ => .ok ⟨"req-1", "queued", "api-9"⟩

/-- Witness for C6 at a concrete input: a failing transcription sequence
(driving samples into the transcribe breaker) followed by a successful
place-call, and a Plivo call sequence, on fresh facades. -/
theorem breaker_independence_witness :
    (stdWorld.runDeepgram [DeepgramCall.recording dAlwaysFail,
        DeepgramCall.url dAlwaysFail]).plivo = stdWorld.plivo ∧
    (stdWorld.runPlivo [PlivoCall.initiate failTwiceThenOk,
        PlivoCall.terminate (fun _ => .ok ⟨"done"⟩)]).deepgram = stdWorld.deepgram ∧
    (PlivoResilient.makeCall
        (stdWorld.runDeepgram [DeepgramCall.recording dAlwaysFail,
          DeepgramCall.url dAlwaysFail]).plivo okCall).env.success = true ∧
    (PlivoResilient.makeCall
        (stdWorld.runDeepgram [DeepgramCall.recording dAlwaysFail,
          DeepgramCall.url dAlwaysFail]).plivo okCall).invocations = 1 :=
  breaker_independence stdWorld
    [DeepgramCall.recording dAlwaysFail, DeepgramCall.url dAlwaysFail]
    [PlivoCall.initiate failTwiceThenOk, PlivoCall.terminate (fun _ => .ok ⟨"done"⟩)]
    okCall ⟨"req-1", "queued", "api-9"⟩ rfl (fun _ => rfl)

end Resilience
